import Mathlib

/-!
Verification of the ja2mqtt serial-MQTT bridge (src/ja2mqtt/components.py and
src/ja2mqtt/config.py) against its natural-language specification.

The Python code is shallowly embedded: Python values are modelled by the
inductive `PyVal`, Python string operations by structural functions over
`List Char` (so that concrete runs reduce in the kernel), stateful code by
explicit state passing, and fallible code by `Except`/`Option` results.
Mutable-default-argument state (the `path=[]` list of
`Topic.check_rule_data`) is threaded explicitly through calls.
-/

/-! ## Python string primitives

Structural implementations of the string operations the source uses
(`str.strip`, `str.split`, `sep.join`, `str.startswith`), so that concrete
evaluations reduce by `decide`/`rfl`. -/

/-- Python whitespace characters recognised by `str.strip()`. -/
def pyWs (c : Char) : Bool :=
  c = ' ' || c = '\t' || c = '\n' || c = '\r' || c = '\x0b' || c = '\x0c'

/-- Drop characters satisfying `p` from both ends of a character list. -/
def stripList (p : Char → Bool) (l : List Char) : List Char :=
  ((l.dropWhile p).reverse.dropWhile p).reverse

/-- Python `s.strip()` (no argument: strip whitespace from both ends). -/
def pyStripWs (s : String) : String := String.mk (stripList pyWs s.data)

/-- Python `s.strip(chars)`: strip any of the given characters from both ends. -/
def pyStripChars (cs : List Char) (s : String) : String :=
  String.mk (stripList (fun c => cs.contains c) s.data)

/-- Python `s.split(sep)` for a one-character separator, on character lists:
splits at every occurrence, keeping empty segments. -/
def splitListOn (sep : Char) : List Char → List (List Char)
  | [] => [[]]
  | c :: rest =>
    match splitListOn sep rest with
    | h :: t => if c = sep then [] :: h :: t else (c :: h) :: t
    | [] => if c = sep then [[], []] else [[c]]

/-- Python `s.split(sep)` for a one-character separator. -/
def pySplit (sep : Char) (s : String) : List String :=
  (splitListOn sep s.data).map String.mk

/-- Python `sep.join(parts)`. -/
def pyJoin (sep : String) (parts : List String) : String :=
  String.intercalate sep parts

/-- Python `s.startswith(pre)`. -/
def pyStartsWith (pre s : String) : Bool := pre.data.isPrefixOf s.data

/-- Python `str.isdigit`-style check used for the `[0-9]+` regex pieces:
nonempty and all decimal digits. -/
def isDigits (s : String) : Bool := !s.data.isEmpty && s.data.all Char.isDigit

/-! ## Python values

`PyVal` models the Python values that flow through the bridge: `None`,
`int`, `bool`, `str`, `dict` (insertion-ordered, as in Python 3), and
`PythonExpression`.

`PythonExpression` lives in `ja2mqtt/utils.py`, which is not part of the
given source. Modelled from the spec: it wraps expression source text and
exposes an evaluation operation returning the computed result against a
scope; since every scope the bridge uses is fixed at configuration time,
the evaluation outcome is modelled by the stored `result` field. -/

inductive PyVal where
  | none
  | int (n : Int)
  | bool (b : Bool)
  | str (s : String)
  | dict (entries : List (String × PyVal))
  | expr (src : String) (result : PyVal)

/-- Python `type(v).__name__` for the types that occur in rule data. -/
def pyType : PyVal → String
  | .none => "NoneType"
  | .int _ => "int"
  | .bool _ => "bool"
  | .str _ => "str"
  | .dict _ => "dict"
  | .expr _ _ => "PythonExpression"

/-- Embeds `isinstance(v, PythonExpression)`. -/
def isPyExpr : PyVal → Bool
  | .expr _ _ => true
  | _ => false

/-- Embeds `v is None` (identity test against `None`). -/
def pyIsNone : PyVal → Bool
  | .none => true
  | _ => false

/-- The stored evaluation result of a `PythonExpression`; identity on
other values. Modelled from the spec: `PythonExpression.eval(scope)`
returns the computed result of the wrapped expression. -/
def pyExprResult : PyVal → PyVal
  | .expr _ r => r
  | v => v

/-- Python truthiness (`bool(v)`): `None`, `0`, `False`, `""` and the empty
dict are falsy; every other modelled value is truthy. -/
def pyTruthy : PyVal → Bool
  | .none => false
  | .int n => n != 0
  | .bool b => b
  | .str s => !s.data.isEmpty
  | .dict e => !e.isEmpty
  | .expr _ _ => true

/-- Python `str(v)` as used inside the source's f-string error messages.
Dict rendering is abbreviated (no claim depends on rendering a dict). -/
def pyStrOf : PyVal → String
  | .none => "None"
  | .int n => toString n
  | .bool b => if b then "True" else "False"
  | .str s => s
  | .dict _ => "\x7b...\x7d"
  | .expr src _ => src

/-- Python `d.get(k)` / `k in d.keys()` on an insertion-ordered dict. -/
def lookupKey : List (String × PyVal) → String → Option PyVal
  | [], _ => Option.none
  | (k2, v) :: rest, k => if k2 = k then some v else lookupKey rest k

mutual
/-- Python `==` on the modelled values: numeric cross-type equality between
`int` and `bool` (True == 1), structural order-insensitive equality on
dicts (same size and every entry of the first present and equal in the
second), and object identity (modelled as false between distinct syntactic
expressions) on `PythonExpression`. -/
def pyEq : PyVal → PyVal → Bool
  | .none, .none => true
  | .int a, .int b => a == b
  | .int a, .bool b => a == (if b then (1 : Int) else 0)
  | .bool a, .int b => (if a then (1 : Int) else 0) == b
  | .bool a, .bool b => a == b
  | .str a, .str b => a == b
  | .dict a, .dict b => a.length == b.length && pyEqEntries a b
  | _, _ => false
termination_by structural a _ => a

/-- Every entry of the first dict is present with an equal value in the
second. -/
def pyEqEntries : List (String × PyVal) → List (String × PyVal) → Bool
  | [], _ => true
  | (k, v) :: rest, b =>
    (match lookupKey b k with
     | some w => pyEq v w
     | Option.none => false) && pyEqEntries rest b
termination_by structural a _ => a
end

/-! ## Topic.check_rule_data (components.py:304-322)

`check_rule_data(read, data, scope, path=[])` recursively validates the
payload `data` against the rule specification `read`. Two source facts the
embedding preserves exactly:

* `path += [k]` mutates the `path` list in place, and the default argument
  `[]` is a single list object shared by every call that omits `path`.
  The embedding threads the list state explicitly: the function takes the
  current list and returns the (possibly error) outcome together with the
  final list state, which the caller must feed to the next default-argument
  invocation.
* The missing-property error message is `f"Missing property {k}."` — it
  names the bare key only, while the type/value mismatch messages name
  `'.'.join(path)` (note the source's spelling `exepcted`).

The `scope` parameter is not threaded: expression evaluation is modelled by
the expression's stored result (see `PyVal.expr`). -/

mutual
/-- The `for k, v in read.items()` loop of `check_rule_data`. -/
def check_rule_data :
    List (String × PyVal) → List (String × PyVal) → List String →
    Option String × List String
  | [], _, path => (Option.none, path)
  | (k, v) :: rest, data, path =>
    let path1 := path ++ [k]
    match lookupKey data k with
    | Option.none => (some ("Missing property " ++ k ++ "."), path1)
    | some dv =>
      if !isPyExpr v && pyType v != pyType dv then
        (some ("Invalid type of property " ++ pyJoin "." path1 ++ ", found: "
            ++ pyType dv ++ ", expected: " ++ pyType v), path1)
      else
        match check_rule_value v dv path1 with
        | (some e, path2) => (some e, path2)
        | (Option.none, path2) => check_rule_data rest data path2
termination_by structural read _ _ => read

/-- The body of one loop iteration after the membership and type checks:
recurse when the expected value is a dict, otherwise evaluate a possible
expression and compare with Python `==`. -/
def check_rule_value (v dv : PyVal) (path1 : List String) :
    Option String × List String :=
  match v with
  | .dict ve =>
    match dv with
    | .dict de => check_rule_data ve de path1
    | _ =>
      -- unreachable: the type check in the caller guarantees data[k] is a dict
      (some "AttributeError", path1)
  | _ =>
    let v2 := pyExprResult v
    if pyEq v2 dv then (Option.none, path1)
    else
      (some ("Invalid value of property " ++ pyJoin "." path1
          ++ ", found: " ++ pyStrOf dv ++ ", exepcted: " ++ pyStrOf v2),
        path1)
termination_by structural v
end

/-! ## Configuration access (config.py:229-305)

`ConfigPart.value` is the typed path-addressed lookup. The embedding keeps
the source's structure:

* `required = default is not None and required` (line 249),
* the `reduce` descent over `path.split(".")` with `di.get(key, default)`
  at each level and `default` at non-dict levels (lines 252-258),
* `if val == default: r = default` (Python `==`, so `pyEq`),
* expression evaluation when `not no_eval` (modelled via `pyExprResult`;
  the scope assembled from the parent configuration is fixed at load time),
* optional type coercion `type(val)`,
* the final `if not r and required: raise` falsy check (lines 277-278).
-/

/-- The coercion callables the source passes as `type`: `str`, `int`, `bool`. -/
inductive PyCoerce where
  | toStr
  | toInt
  | toBool

/-- Python `int(s)` on strings: optional surrounding whitespace, optional
sign, then one or more digits; anything else is a `ValueError`. -/
def pyIntOfStr (s : String) : Except String PyVal :=
  let t := pyStripWs s
  let core := match t.data with
    | '+' :: rest => rest
    | '-' :: rest => rest
    | l => l
  if core.isEmpty || !core.all Char.isDigit then
    .error ("ValueError: invalid literal for int(): " ++ s)
  else
    let n : Int := core.foldl (fun acc c => acc * 10 + (c.toNat - '0'.toNat)) 0
    if t.data.head? = some '-' then .ok (.int (-n)) else .ok (.int n)

/-- Applying one of the `type` callables to a value, as Python would. -/
def pyCoerce : PyCoerce → PyVal → Except String PyVal
  | .toBool, v => .ok (.bool (pyTruthy v))
  | .toStr, v => .ok (.str (pyStrOf v))
  | .toInt, v =>
    match v with
    | .int n => .ok (.int n)
    | .bool b => .ok (.int (if b then 1 else 0))
    | .str s => pyIntOfStr s
    | _ => .error "TypeError: int() argument"

/-- Embeds `ConfigPart` (config.py:229-237): a sub-tree of the configuration with
its dotted base path. `config` is the sub-tree reference `self._config`
(`PyVal.none` models Python `None`). -/
structure ConfigPart where
  base_path : Option String
  config : PyVal

/-- Embeds `ConfigPart.path` (config.py:242-243). -/
def ConfigPart.pathOf (cp : ConfigPart) (p : String) : String :=
  match cp.base_path with
  | some bp => bp ++ "." ++ p
  | Option.none => p

/-- The `reduce` descent of `ConfigPart.value` (config.py:252-258):
`di.get(key, default)` when the current level is a dict, `default`
otherwise. -/
def pathReduce (cfg : PyVal) (segs : List String) (default : PyVal) : PyVal :=
  segs.foldl
    (fun di key =>
      match di with
      | .dict entries => (lookupKey entries key).getD default
      | _ => default)
    cfg

/-- Embeds `ConfigPart.value` (config.py:248-279). A coercion error propagates
(the `type(val)` call is not wrapped); on the normal path the final
`if not r and required` falsy check decides between the missing-property
error and the result. -/
def ConfigPart.value (cp : ConfigPart) (p : String) (default : PyVal)
    (ty : Option PyCoerce) (required no_eval : Bool) : Except String PyVal :=
  let req := !pyIsNone default && required
  let rRes : Except String PyVal :=
    if pyIsNone cp.config then .ok default
    else
      let val := pathReduce cp.config (pySplit '.' p) default
      if pyEq val default then .ok default
      else
        let val2 := if !no_eval && isPyExpr val then pyExprResult val else val
        match ty with
        | some c => pyCoerce c val2
        | Option.none => .ok val2
  match rRes with
  | .error e => .error e
  | .ok r =>
    if !pyTruthy r && req then
      .error ("The property '" ++ cp.pathOf p ++ "' does not exist!")
    else
      .ok r

/-- Embeds `ConfigPart.value_bool` (config.py:304-305): `value` with `type=bool`. -/
def ConfigPart.value_bool (cp : ConfigPart) (p : String) (default : PyVal)
    (required : Bool) : Except String PyVal :=
  cp.value p default (some .toBool) required false

/-- Embeds `ConfigPart.__call__` (config.py:245-246): forwards every argument to
`value`. -/
def ConfigPart.call (cp : ConfigPart) (p : String) (default : PyVal)
    (ty : Option PyCoerce) (required no_eval : Bool) : Except String PyVal :=
  cp.value p default ty required no_eval

/-- Invoking a `ConfigPart` with only the path argument: Python fills in
the declared defaults `default=None, type=None, required=True,
no_eval=False`. -/
def ConfigPart.callPathOnly (cp : ConfigPart) (p : String) :
    Except String PyVal :=
  cp.call p PyVal.none Option.none true false

/-- Embeds `Config` (config.py:189-226), reduced to what the claims need: its root
`ConfigPart`. -/
structure Config where
  root : ConfigPart

/-- Embeds `Config.__call__` (config.py:225-226): the source ignores the supplied
`default`/`type`/`required`/`no_eval` arguments and invokes the root part
with the literal values `None`, `None`, `True`, `False`. -/
def Config.call (cfg : Config) (p : String) (_default : PyVal)
    (_ty : Option PyCoerce) (_required _no_eval : Bool) :
    Except String PyVal :=
  cfg.root.call p PyVal.none Option.none true false

/-- Embeds `Serial.__init__` reading the encoding (components.py:141):
`config_serial.value_bool("encoding", default="ascii")` — the
boolean-coercing accessor with the string default `"ascii"` and the
`required=False` default. -/
def Serial.encodingOf (config_serial : ConfigPart) : Except String PyVal :=
  config_serial.value_bool "encoding" (.str "ascii") false

/-! ## init_env (config.py:98-116)

The consolidated environment table: OS environment first, then the optional
`key=value` file. The OS environment is an association list (Python dict in
insertion order); assignment replaces an existing key in place or appends. -/

/-- Dict assignment `env[key] = value`. -/
def setEnv (env : List (String × String)) (k v : String) :
    List (String × String) :=
  if env.any (fun p => p.1 = k) then
    env.map (fun p => if p.1 = k then (k, v) else p)
  else env ++ [(k, v)]

/-- Dict lookup. -/
def lookupEnv : List (String × String) → String → Option String
  | [], _ => Option.none
  | (k2, v) :: rest, k => if k2 = k then some v else lookupEnv rest k

/-- The `ENVNAME_PATTERN` check (config.py:30,112): the key must fully
match `[A-Z0-9_]+`. -/
def envNameOk (k : String) : Bool :=
  !k.data.isEmpty &&
    k.data.all (fun c => ('A' ≤ c && c ≤ 'Z') || c.isDigit || c = '_')

/-- Processing of one line of the env file (config.py:107-115): strip the
line; skip it when blank or starting with the comment character `#`;
otherwise split on `=`, validate the stripped key against
`ENVNAME_PATTERN` (fatal error on mismatch), and store the value — the
tail rejoined on `=`, stripped of whitespace and then of surrounding
single/double quotes. -/
def init_env_line (env : List (String × String)) (line : String) :
    Except String (List (String × String)) :=
  let l := pyStripWs line
  if l != "" && !pyStartsWith "#" l then
    let key_value := pySplit '=' l
    let key := pyStripWs (key_value.headD "")
    if !envNameOk key then
      .error ("Invalid variable name '" ++ key ++ "'.")
    else
      let value := pyStripChars ['"', '\''] (pyStripWs (pyJoin "=" key_value.tail))
      .ok (setEnv env key value)
  else
    .ok env

/-- Embeds `init_env` (config.py:98-116): start from the OS environment, then
overlay the optional env file line by line. `Option.none` models a falsy
`env_file` argument (no file given). -/
def init_env (os_env : List (String × String))
    (env_file : Option (List String)) :
    Except String (List (String × String)) :=
  let env := os_env
  match env_file with
  | Option.none => .ok env
  | some lines => lines.foldlM init_env_line env

/-! ## Section (components.py:35-55)

One alarm zone: a numeric code and a state string. `set`/`unset` return the
reply line (Python `None` — modelled `Option.none` — when the state is
neither `"ARMED"` nor `"READY"`, since both `if` branches fall through)
and the possibly updated section. -/

structure Section where
  code : Int
  state : String

/-- Embeds `Section.__str__`. -/
def Section.str (s : Section) : String :=
  "STATE " ++ toString s.code ++ " " ++ s.state

/-- Embeds `Section.set`: `ARMED → ARMED` replies `"OK"`; `READY → ARMED` replies
the new status line. -/
def Section.set (s : Section) : Option String × Section :=
  if s.state = "ARMED" then (some "OK", s)
  else if s.state = "READY" then
    let s2 : Section := { s with state := "ARMED" }
    (some s2.str, s2)
  else (Option.none, s)

/-- Embeds `Section.unset`: `READY → READY` replies `"OK"`; `ARMED → READY`
replies the new status line. -/
def Section.unset (s : Section) : Option String × Section :=
  if s.state = "READY" then (some "OK", s)
  else if s.state = "ARMED" then
    let s2 : Section := { s with state := "READY" }
    (some s2.str, s2)
  else (Option.none, s)

/-- A call in a `set`/`unset` call sequence. -/
inductive SecOp where
  | set
  | unset

/-- Apply one call. -/
def Section.runOp (s : Section) (op : SecOp) : Option String × Section :=
  match op with
  | .set => s.set
  | .unset => s.unset

/-- Run a sequence of `set`/`unset` calls, keeping the final section. -/
def Section.runOps (s : Section) : List SecOp → Section
  | [] => s
  | op :: rest => ((s.runOp op).2).runOps rest

/-! ## Simulator (components.py:57-131)

`Simulator.write` handles one decoded command line. Buffer interaction is
modelled as a trace of operations: `_add_to_buffer` (components.py:74-76)
contributes `[sleep, put line]` — a response-delay sleep followed by the
queue insertion — while the direct `self.buffer.put(...)` calls contribute
a bare `put`. `put`'s payload is an `Option String` because the source can
enqueue Python `None` (a `set`/`unset` fall-through reply).

The two regex literals of `Simulator.write` are hand-compiled:
`"^(?P<pin>[0-9]+) (?P<command>SET|UNSET) (?P<code>[0-9]+)$"` matches
exactly the strings made of three single-space-separated fields — digits,
`SET`/`UNSET`, digits — and `"^(?P<pin>[0-9]+) (?P<command>STATE)$"`
exactly two fields — digits, `STATE`. -/

/-- One effect on the simulator's output buffer. -/
inductive BufOp where
  | sleep
  | put (line : Option String)

/-- Is the operation the response-delay sleep? -/
def BufOp.isSleep : BufOp → Bool
  | .sleep => true
  | _ => false

/-- The simulator: configured PIN and the zone map keyed by `str(code)` in
insertion order (components.py:62-63). -/
structure Simulator where
  pin : Int
  sections : List (String × Section)

/-- Hand-compiled `_match` against
`"^(?P<pin>[0-9]+) (?P<command>SET|UNSET) (?P<code>[0-9]+)$"`, returning
the named groups `(pin, command, code)`. -/
def matchSetUnset (s : String) : Option (String × String × String) :=
  match pySplit ' ' s with
  | [p, c, z] =>
    if isDigits p && (c = "SET" || c = "UNSET") && isDigits z then
      some (p, c, z)
    else Option.none
  | _ => Option.none

/-- Hand-compiled `_match` against
`"^(?P<pin>[0-9]+) (?P<command>STATE)$"`, returning the `pin` group. -/
def matchState (s : String) : Option String :=
  match pySplit ' ' s with
  | [p, c] => if isDigits p && c = "STATE" then some p else Option.none
  | _ => Option.none

/-- Embeds `self.sections.get(command.code)`. -/
def lookupSec : List (String × Section) → String → Option Section
  | [], _ => Option.none
  | (k2, v) :: rest, k => if k2 = k then some v else lookupSec rest k

/-- Replace the section stored under `code`. -/
def setSection (secs : List (String × Section)) (code : String)
    (sec : Section) : List (String × Section) :=
  secs.map (fun p => if p.1 = code then (code, sec) else p)

/-- Embeds `Simulator.write` (components.py:78-114) on an already-decoded line:
strip newlines; try the SET/UNSET command form (PIN check first —
`_check_pin` enqueues `ERROR: 3 NO_ACCESS` through `_add_to_buffer` and
short-circuits; unknown zone enqueues `ERROR: 4 INVALID_VALUE` through
`_add_to_buffer`; otherwise the section reply); then, independently, try
the STATE form (PIN check first; on success one response-delay sleep and
then every zone's status line enqueued directly). Returns the buffer trace
and the updated simulator. -/
def Simulator.write (sim : Simulator) (data : String) :
    List BufOp × Simulator :=
  let data_str := pyStripChars ['\n'] data
  -- SET and UNSET commands
  let step1 : List BufOp × Simulator :=
    match matchSetUnset data_str with
    | Option.none => ([], sim)
    | some (p, c, z) =>
      if p ≠ toString sim.pin then
        ([.sleep, .put (some "ERROR: 3 NO_ACCESS")], sim)
      else
        match lookupSec sim.sections z with
        | some sec =>
          let r := if c = "SET" then sec.set else sec.unset
          ([.sleep, .put r.1],
            { sim with sections := setSection sim.sections z r.2 })
        | Option.none =>
          ([.sleep, .put (some "ERROR: 4 INVALID_VALUE")], sim)
  -- STATE command
  let step2 : List BufOp × Simulator :=
    match matchState data_str with
    | Option.none => ([], step1.2)
    | some p =>
      if p ≠ toString step1.2.pin then
        ([.sleep, .put (some "ERROR: 3 NO_ACCESS")], step1.2)
      else
        ([.sleep] ++ step1.2.sections.map (fun kv => .put (some kv.2.str)),
          step1.2)
  (step1.1 ++ step2.1, step2.2)

/-- A timed rule of the simulator (components.py:61, 122-131): the `time`
interval (absent or zero reads as falsy), the literal `write` line (absent
reads as `None` on the attribute-access mapping), and the private
last-fire timestamp `rule.__last_write`. -/
structure SimRule where
  time : Option Int
  write : Option String
  last_write : Option Int

/-- One evaluation of one timed rule inside `Simulator.worker`
(components.py:124-130) at the current time `now`: skip rules without a
truthy `time`; on first evaluation record `now` as the last-fire time;
when the elapsed time exceeds the interval, enqueue the rule's `write`
line directly (`self.buffer.put`, no response delay) and reset the
last-fire time. -/
def simRuleTick (now : Int) (r : SimRule) : List BufOp × SimRule :=
  match r.time with
  | Option.none => ([], r)
  | some t =>
    if t = 0 then ([], r)
    else
      let last := match r.last_write with
        | Option.none => now
        | some lw => lw
      if now - last > t then
        ([.put r.write], { r with last_write := some now })
      else
        ([], { r with last_write := some last })

/-- One pass of the `Simulator.worker` loop body over all timed rules. -/
def Simulator.workerTick (now : Int) : List SimRule → List BufOp × List SimRule
  | [] => ([], [])
  | r :: rest =>
    let h := simRuleTick now r
    let t := Simulator.workerTick now rest
    (h.1 ++ t.1, h.2 :: t.2)

/-- Every buffered line is individually preceded by a response-delay sleep:
the trace consists of lone sleeps and `sleep`-then-`put` pairs. A `put`
without its own immediately preceding `sleep` violates the property. -/
def eachPutDelayed : List BufOp → Bool
  | [] => true
  | .sleep :: .put _ :: rest => eachPutDelayed rest
  | .sleep :: rest => eachPutDelayed rest
  | .put _ :: _ => false

/-! ## Pattern (components.py:282-293)

`Pattern` wraps a compiled regular expression. The compiled object
`re.compile(self.pattern)` comes from the boundary regex library; it is
modelled by its `match` method — a function from a candidate string to the
left-anchored match's `group(0)` (the full matched substring), `Option.none`
when there is no match. The stored last match `self.match` is the field
`matchRes` (`match` is a reserved word in Lean). -/

structure Pattern where
  pattern : String
  re : String → Option String
  matchRes : Option String

/-- Embeds `Pattern.__init__`: stores the source text, compiles it, and sets the
last match to `None`. -/
def Pattern.compile (p : String) (re : String → Option String) : Pattern :=
  ⟨p, re, Option.none⟩

/-- Embeds `Pattern.__eq__` (components.py:291-293): attempt the left-anchored
match, store the result, and report whether it succeeded. -/
def Pattern.eq (pt : Pattern) (other : String) : Pattern × Bool :=
  let m := pt.re other
  ({ pt with matchRes := m }, m.isSome)

/-- Embeds `Pattern.__str__` (components.py:288-289): `f"r'{self.pattern}'"` when
no match is stored, otherwise the full matched substring
(`self.match.group(0)`). -/
def Pattern.str (pt : Pattern) : String :=
  match pt.matchRes with
  | Option.none => "r'" ++ pt.pattern ++ "'"
  | some m => m

/-- Hand-compilation of the example regex `"^STATE ([0-9]+) READY$"`: the
whole string must be `STATE`, one or more digits, `READY`, single-space
separated; `group(0)` of the doubly anchored match is the whole string. -/
def stateReadyRe (s : String) : Option String :=
  match pySplit ' ' s with
  | [w1, d, w3] =>
    if w1 = "STATE" && isDigits d && w3 = "READY" then some s
    else Option.none
  | _ => Option.none

/-! ## SerialMQTTBridge handlers (components.py:373-422)

The two event handlers are embedded with their exact control flow; the
parts of a rule that live behind the missing `utils.py` are modelled from
the spec:

* a rule's `write` specification materialises, via
  `deep_eval(..., scope)` with the transient `data` binding, into one
  concrete output (a serial line for `mqtt2serial`, a JSON text for
  `serial2mqtt`); since the rest of the scope is static it is modelled as
  a function of the bound payload;
* a `serial2mqtt` rule's `read` is either a literal value or a
  `PythonExpression` whose evaluation yields the comparison target —
  a plain value or a freshly constructed `Pattern`.

`check_rule_data` raising inside `on_mqtt_message` propagates out of the
handler (it is caught only by the MQTT client wrapper), so the embedded
handler aborts on the first validation error, returning the lines written
so far, the error, and the final state of the shared default `path` list. -/

/-- One `mqtt2serial` rule: the `read` dict and the materialised `write`
(modelled from the spec as a function of the payload bound to `data`). -/
structure MqttRule where
  read : List (String × PyVal)
  write : List (String × PyVal) → String

/-- One `mqtt2serial` topic (components.py:296-302). -/
structure MqttTopic where
  name : String
  disabled : Bool
  rules : List MqttRule

/-- The inner rule loop of `on_mqtt_message` (components.py:385-394) over
one topic's rules: validate the payload against each rule's `read` via
`check_rule_data` (threading the shared default `path` list), write the
rule's materialised `write` line to the serial interface on success, and
abort — propagating the error — on the first validation failure. Returns
the written lines, the error if any, and the final `path` list state. -/
def runMqttRules :
    List MqttRule → List (String × PyVal) → List String →
    List String × Option String × List String
  | [], _, dflt => ([], Option.none, dflt)
  | r :: rest, data, dflt =>
    match check_rule_data r.read data dflt with
    | (some e, dflt2) => ([], some e, dflt2)
    | (Option.none, dflt2) =>
      let t := runMqttRules rest data dflt2
      (r.write data :: t.1, t.2.1, t.2.2)

/-- Embeds `SerialMQTTBridge.on_mqtt_message` (components.py:373-394) after the
payload has been JSON-decoded into `data`: for every enabled topic whose
name equals the incoming topic name, run the topic's rules; a validation
error aborts the whole handler. -/
def on_mqtt_message :
    List MqttTopic → String → List (String × PyVal) → List String →
    List String × Option String × List String
  | [], _, _, dflt => ([], Option.none, dflt)
  | t :: rest, topic_name, data, dflt =>
    if !t.disabled && t.name = topic_name then
      match runMqttRules t.rules data dflt with
      | (lines, some e, dflt2) => (lines, some e, dflt2)
      | (lines, Option.none, dflt2) =>
        let r := on_mqtt_message rest topic_name data dflt2
        (lines ++ r.1, r.2.1, r.2.2)
    else
      on_mqtt_message rest topic_name data dflt

/-- The flattened list of rules the handler acts on for one incoming topic
name: the rules of every enabled topic with that name, in list order. -/
def mqttMatchingRules (topics : List MqttTopic) (topic_name : String) :
    List MqttRule :=
  match topics with
  | [] => []
  | t :: rest =>
    (if !t.disabled && t.name = topic_name then t.rules else []) ++
      mqttMatchingRules rest topic_name

/-- The comparison target a `serial2mqtt` rule's `read` evaluates to: a
plain value or a freshly constructed `Pattern`. -/
inductive SerialReadVal where
  | val (v : PyVal)
  | pat (re : String → Option String)

/-- A `serial2mqtt` rule's `read`: a literal value, or a
`PythonExpression` whose evaluation against the (static) scope is modelled
by its resulting comparison target. -/
inductive SerialRead where
  | lit (v : PyVal)
  | expr (result : SerialReadVal)

/-- Embeds `rule.read.eval(self.scope())` for expressions, the literal itself
otherwise (components.py:407-410). -/
def serialReadTarget : SerialRead → SerialReadVal
  | .lit v => .val v
  | .expr r => r

/-- The `_data == data` comparison (components.py:411): `Pattern.__eq__`
performs the left-anchored match, a plain value is compared with Python
`==` against the line string. -/
def serialMatches : SerialReadVal → String → Bool
  | .val v, line => pyEq v (.str line)
  | .pat re, line => (re line).isSome

/-- One `serial2mqtt` rule: the `read` specification and the materialised
JSON payload `json.dumps(deep_eval(deep_merge(rule.write, {}), scope))`
(modelled from the spec as a function of the incoming line). -/
structure SerialRule where
  read : SerialRead
  write : String → String

/-- One `serial2mqtt` topic. -/
structure SerialTopic where
  name : String
  disabled : Bool
  rules : List SerialRule

/-- The inner rule loop of `on_serial_data` (components.py:406-422) over
one topic's rules: publish `(topic name, materialised write)` for every
rule whose `read` matches the line; non-matching rules are simply
skipped. -/
def runSerialRules (tname : String) (rules : List SerialRule)
    (line : String) : List (String × String) :=
  match rules with
  | [] => []
  | r :: rest =>
    if serialMatches (serialReadTarget r.read) line then
      (tname, r.write line) :: runSerialRules tname rest line
    else
      runSerialRules tname rest line

/-- The topic loop of `on_serial_data` (components.py:404-422). -/
def runSerialTopics (topics : List SerialTopic) (line : String) :
    List (String × String) :=
  match topics with
  | [] => []
  | t :: rest =>
    (if !t.disabled then runSerialRules t.name t.rules line else []) ++
      runSerialTopics rest line

/-- Embeds `SerialMQTTBridge.on_serial_data` (components.py:396-422): when the
MQTT client is not connected, log and drop the event (no publishes);
otherwise publish through every enabled topic's matching rules. Returns
the list of `(topic, payload)` publishes. -/
def on_serial_data (connected : Bool) (topics : List SerialTopic)
    (line : String) : List (String × String) :=
  if !connected then []
  else runSerialTopics topics line

/-- The flattened `(topic name, rule)` pairs of the enabled `serial2mqtt`
topics, in list order. -/
def serialEnabledRules (topics : List SerialTopic) :
    List (String × SerialRule) :=
  match topics with
  | [] => []
  | t :: rest =>
    (if !t.disabled then t.rules.map (fun r => (t.name, r)) else []) ++
      serialEnabledRules rest

/-! ## Helper lemmas -/

/-- The two command regexes are disjoint: a line matching the three-field
SET/UNSET form cannot match the two-field STATE form. -/
lemma matchState_none_of_matchSetUnset {s p c z : String}
    (h : matchSetUnset s = some (p, c, z)) : matchState s = Option.none := by
  unfold matchSetUnset at h
  unfold matchState
  rcases h2 : pySplit ' ' s with _ | ⟨a, _ | ⟨b, _ | ⟨cc, _ | ⟨d4, t⟩⟩⟩⟩ <;>
    simp_all [h2]

/-- The converse disjointness direction. -/
lemma matchSetUnset_none_of_matchState {s p : String}
    (h : matchState s = some p) : matchSetUnset s = Option.none := by
  unfold matchState at h
  unfold matchSetUnset
  rcases h2 : pySplit ' ' s with _ | ⟨a, _ | ⟨b, _ | ⟨cc, _ | ⟨d4, t⟩⟩⟩⟩ <;>
    simp_all [h2]

/-- One `set`/`unset` call keeps a `READY`/`ARMED` section in
`{READY, ARMED}`. -/
lemma Section.runOp_state_mem (s : Section) (op : SecOp)
    (h : s.state = "READY" ∨ s.state = "ARMED") :
    (s.runOp op).2.state = "READY" ∨ (s.runOp op).2.state = "ARMED" := by
  rcases h with h | h <;> cases op <;>
    simp [Section.runOp, Section.set, Section.unset, h]

/-- Python equality cannot relate a falsy value to a truthy one (among
the modelled values `None`/`int`/`bool`/`str`/`dict`). -/
lemma pyTruthy_eq_false_of_pyEq {v d : PyVal} (h : pyEq v d = true)
    (hv : pyTruthy v = false) : pyTruthy d = false := by
  cases v <;> cases d <;>
    simp only [pyEq, pyTruthy, Bool.and_eq_true, beq_iff_eq, bne_eq_false_iff_eq,
      Bool.not_eq_true, List.isEmpty_eq_true] at h hv ⊢ <;>
    try rfl
  all_goals try (cases h)
  all_goals try assumption
  all_goals try (rename_i b; cases b <;> simp_all)
  all_goals (cases ‹List (String × PyVal)› <;> simp_all)

/-- Behaviour of `lookupEnv` after a replacing `setEnv` on a key that is present. -/
lemma lookupEnv_map_replace (env : List (String × String)) (k v : String)
    (h : env.any (fun p => p.1 = k) = true) :
    lookupEnv (env.map (fun p => if p.1 = k then (k, v) else p)) k = some v := by
  induction env with
  | nil => simp at h
  | cons hd tl ih =>
    by_cases h1 : hd.1 = k
    · simp only [List.map_cons, if_pos h1]
      simp [lookupEnv]
    · simp only [List.any_cons, Bool.or_eq_true, decide_eq_true_eq] at h
      rcases h with h | h
      · exact absurd h h1
      · simp only [List.map_cons, if_neg h1]
        simp only [lookupEnv, if_neg h1]
        exact ih h

/-- Behaviour of `lookupEnv` after an appending `setEnv` on a key that is absent. -/
lemma lookupEnv_append_new (env : List (String × String)) (k v : String)
    (h : env.any (fun p => p.1 = k) = false) :
    lookupEnv (env ++ [(k, v)]) k = some v := by
  induction env with
  | nil => simp [lookupEnv]
  | cons hd tl ih =>
    simp only [List.any_cons, Bool.or_eq_false_iff, decide_eq_false_iff_not] at h
    simp only [List.cons_append, lookupEnv, h.1, if_neg h.1]
    exact ih (by simpa using h.2)

/-- The serial-side rule loop is a `filterMap`: each rule contributes its
publish exactly when its own `read` matches the line. -/
lemma runSerialRules_eq_filterMap (tname : String) (rules : List SerialRule)
    (line : String) :
    runSerialRules tname rules line =
      rules.filterMap (fun r =>
        if serialMatches (serialReadTarget r.read) line
        then some (tname, r.write line) else Option.none) := by
  induction rules with
  | nil => rfl
  | cons r rest ih =>
    by_cases h : serialMatches (serialReadTarget r.read) line <;>
      simp [runSerialRules, h, ih]

/-- The serial-side topic loop is a `filterMap` over the flattened enabled
`(topic, rule)` pairs. -/
lemma runSerialTopics_eq_filterMap (topics : List SerialTopic)
    (line : String) :
    runSerialTopics topics line =
      (serialEnabledRules topics).filterMap (fun tr =>
        if serialMatches (serialReadTarget tr.2.read) line
        then some (tr.1, tr.2.write line) else Option.none) := by
  induction topics with
  | nil => rfl
  | cons t rest ih =>
    by_cases ht : t.disabled
    · simp [runSerialTopics, serialEnabledRules, ht, ih]
    · simp [runSerialTopics, serialEnabledRules, ht, ih,
        List.filterMap_append, List.filterMap_map,
        runSerialRules_eq_filterMap]
      try rfl

/-- Splitting the sequential mqtt rule run over an append: the second part
runs only when the first part raised no validation error, continuing from
its final `path`-list state. -/
lemma runMqttRules_append (a b : List MqttRule)
    (data : List (String × PyVal)) (dflt : List String) :
    runMqttRules (a ++ b) data dflt =
      match runMqttRules a data dflt with
      | (lines, some e, d2) => (lines, some e, d2)
      | (lines, Option.none, d2) =>
        let r := runMqttRules b data d2
        (lines ++ r.1, r.2.1, r.2.2) := by
  induction a generalizing dflt with
  | nil => simp [runMqttRules]
  | cons r rest ih =>
    simp only [List.cons_append, runMqttRules]
    cases hc : check_rule_data r.read data dflt with
    | mk err d2 =>
      cases err with
      | some e => rfl
      | none =>
        cases hr : runMqttRules rest data d2 with
        | mk lines rest2 =>
          cases rest2 with
          | mk err2 d3 => cases err2 <;> simp [ih d2, hr]

/-- The handler `on_mqtt_message` runs exactly the flattened rules of the enabled
topics whose name matches, sequentially. -/
lemma on_mqtt_message_eq_runRules (topics : List MqttTopic) (tn : String)
    (data : List (String × PyVal)) (dflt : List String) :
    on_mqtt_message topics tn data dflt =
      runMqttRules (mqttMatchingRules topics tn) data dflt := by
  induction topics generalizing dflt with
  | nil => rfl
  | cons t rest ih =>
    by_cases h : (!t.disabled && t.name = tn) = true
    · simp [on_mqtt_message, mqttMatchingRules, h, runMqttRules_append, ih]
    · simp only [on_mqtt_message, mqttMatchingRules, h, if_neg,
        Bool.false_eq_true, List.nil_append]
      exact ih dflt

/-- When no rule's validation fails, every rule fires in order. -/
lemma runMqttRules_lines_of_no_error (rules : List MqttRule)
    (data : List (String × PyVal)) (dflt : List String)
    (h : (runMqttRules rules data dflt).2.1 = Option.none) :
    (runMqttRules rules data dflt).1 =
      rules.map (fun r => r.write data) := by
  induction rules generalizing dflt with
  | nil => rfl
  | cons r rest ih =>
    simp only [runMqttRules] at h ⊢
    cases hc : check_rule_data r.read data dflt with
    | mk err d2 =>
      cases err with
      | some e => rw [hc] at h; simp at h
      | none =>
        rw [hc] at h
        simp only [List.map_cons] at h ⊢
        simp at h ⊢
        exact ih d2 h

/-! ## Claim theorems -/

/-- Claim C5: for every `Section` whose state is `READY` or `ARMED` and
every sequence of `set`/`unset` calls, the state after each call is again
exactly `READY` or `ARMED`; `set` on `ARMED` returns `"OK"` unchanged;
`unset` on `READY` returns `"OK"` unchanged; `set` on `READY` transitions
to `ARMED` returning `"STATE <code> ARMED"`; `unset` on `ARMED`
transitions to `READY` returning `"STATE <code> READY"`. -/
theorem claim_C5 (s : Section) (h : s.state = "READY" ∨ s.state = "ARMED") :
    (∀ ops : List SecOp,
      (s.runOps ops).state = "READY" ∨ (s.runOps ops).state = "ARMED")
    ∧ (s.state = "ARMED" → s.set = (some "OK", s))
    ∧ (s.state = "READY" → s.unset = (some "OK", s))
    ∧ (s.state = "READY" →
        s.set = (some ("STATE " ++ toString s.code ++ " ARMED"),
          { s with state := "ARMED" }))
    ∧ (s.state = "ARMED" →
        s.unset = (some ("STATE " ++ toString s.code ++ " READY"),
          { s with state := "READY" })) := by
  refine ⟨?_, ?_, ?_, ?_, ?_⟩
  · intro ops
    induction ops generalizing s with
    | nil => exact h
    | cons op rest ih =>
      exact ih _ (Section.runOp_state_mem s op h)
  · intro hs; simp [Section.set, hs]
  · intro hs; simp [Section.unset, hs]
  · intro hs
    simp [Section.set, Section.str, hs, String.append_assoc,
      show (" " ++ "ARMED" : String) = " ARMED" from rfl]
  · intro hs
    simp [Section.unset, Section.str, hs, String.append_assoc,
      show (" " ++ "READY" : String) = " READY" from rfl]

/-- Witness for C5 at a concrete section and call sequence. -/
theorem claim_C5_witness :
    ((Section.mk 1 "READY").runOps [SecOp.set, SecOp.set, SecOp.unset]).state
        = "READY" ∨
      ((Section.mk 1 "READY").runOps [SecOp.set, SecOp.set, SecOp.unset]).state
        = "ARMED" :=
  (claim_C5 ⟨1, "READY"⟩ (Or.inl rfl)).1 [SecOp.set, SecOp.set, SecOp.unset]

/-- Claim C6: a recognised command with a wrong PIN queues exactly
`ERROR: 3 NO_ACCESS` and changes no section state; a SET/UNSET with a
correct PIN but unknown zone queues exactly `ERROR: 4 INVALID_VALUE`;
unrecognised input queues nothing. -/
theorem claim_C6 :
    (∀ (sim : Simulator) (d p c z : String),
      matchSetUnset (pyStripChars ['\n'] d) = some (p, c, z) →
      p ≠ toString sim.pin →
      sim.write d = ([.sleep, .put (some "ERROR: 3 NO_ACCESS")], sim))
    ∧ (∀ (sim : Simulator) (d p : String),
      matchState (pyStripChars ['\n'] d) = some p →
      p ≠ toString sim.pin →
      sim.write d = ([.sleep, .put (some "ERROR: 3 NO_ACCESS")], sim))
    ∧ (∀ (sim : Simulator) (d p c z : String),
      matchSetUnset (pyStripChars ['\n'] d) = some (p, c, z) →
      p = toString sim.pin →
      lookupSec sim.sections z = Option.none →
      sim.write d = ([.sleep, .put (some "ERROR: 4 INVALID_VALUE")], sim))
    ∧ (∀ (sim : Simulator) (d : String),
      matchSetUnset (pyStripChars ['\n'] d) = Option.none →
      matchState (pyStripChars ['\n'] d) = Option.none →
      sim.write d = ([], sim)) := by
  refine ⟨?_, ?_, ?_, ?_⟩
  · intro sim d p c z h hp
    simp [Simulator.write, h, hp, matchState_none_of_matchSetUnset h]
  · intro sim d p h hp
    simp [Simulator.write, h, hp, matchSetUnset_none_of_matchState h]
  · intro sim d p c z h hp hz
    simp [Simulator.write, h, hp, hz, matchState_none_of_matchSetUnset h]
  · intro sim d h1 h2
    simp [Simulator.write, h1, h2]

/-- Witness for C6: wrong PIN, unknown zone, and unrecognised input on a
concrete simulator. -/
theorem claim_C6_witness :
    Simulator.write ⟨1234, [("1", ⟨1, "READY"⟩)]⟩ "9999 SET 1"
        = ([.sleep, .put (some "ERROR: 3 NO_ACCESS")],
            ⟨1234, [("1", ⟨1, "READY"⟩)]⟩)
    ∧ Simulator.write ⟨1234, [("1", ⟨1, "READY"⟩)]⟩ "1234 SET 99"
        = ([.sleep, .put (some "ERROR: 4 INVALID_VALUE")],
            ⟨1234, [("1", ⟨1, "READY"⟩)]⟩)
    ∧ Simulator.write ⟨1234, [("1", ⟨1, "READY"⟩)]⟩ "hello"
        = ([], ⟨1234, [("1", ⟨1, "READY"⟩)]⟩) :=
  ⟨claim_C6.1 _ "9999 SET 1" "9999" "SET" "1" rfl (by decide),
   claim_C6.2.2.1 _ "1234 SET 99" "1234" "SET" "99" rfl rfl rfl,
   claim_C6.2.2.2 _ "hello" rfl rfl⟩

/-- Claim C2 counterexample: a STATE query with two zones sleeps once and
then enqueues both zone lines directly, so the second queued line is not
individually preceded by the response delay; a due timed rule enqueues its
line with no delay at all. This falsifies "each individual queued line is
delayed by the response delay". -/
theorem claim_C2_counterexample :
    (Simulator.write ⟨1234, [("1", ⟨1, "READY"⟩), ("2", ⟨2, "ARMED"⟩)]⟩
        "1234 STATE").1 =
      [.sleep, .put (some "STATE 1 READY"), .put (some "STATE 2 ARMED")]
    ∧ eachPutDelayed
        [.sleep, .put (some "STATE 1 READY"), .put (some "STATE 2 ARMED")]
        = false
    ∧ (simRuleTick 100 ⟨some 1, some "EVENT", some 0⟩).1
        = [.put (some "EVENT")]
    ∧ eachPutDelayed [.put (some "EVENT")] = false :=
  ⟨rfl, rfl, rfl, rfl⟩

/-- Claim C2 amended: SET/UNSET replies and both error replies go through
`_add_to_buffer` and are each individually preceded by the response delay;
a successful STATE query incurs a single response delay before the whole
batch of per-zone lines, which are enqueued directly; timed-rule event
lines are enqueued by the worker with no response delay at all. -/
theorem claim_C2_amended :
    (∀ (sim : Simulator) (d p c z : String),
      matchSetUnset (pyStripChars ['\n'] d) = some (p, c, z) →
      eachPutDelayed (sim.write d).1 = true)
    ∧ (∀ (sim : Simulator) (d p : String),
      matchState (pyStripChars ['\n'] d) = some p →
      p ≠ toString sim.pin →
      eachPutDelayed (sim.write d).1 = true)
    ∧ (∀ (sim : Simulator) (d p : String),
      matchState (pyStripChars ['\n'] d) = some p →
      p = toString sim.pin →
      (sim.write d).1 =
        [.sleep] ++ sim.sections.map (fun kv => .put (some kv.2.str)))
    ∧ (∀ (now : Int) (rules : List SimRule),
      ((Simulator.workerTick now rules).1).all (fun op => !op.isSleep)
        = true) := by
  refine ⟨?_, ?_, ?_, ?_⟩
  · intro sim d p c z h
    by_cases hp : p = toString sim.pin
    · cases hz : lookupSec sim.sections z with
      | none =>
        simp [Simulator.write, h, hp, hz, matchState_none_of_matchSetUnset h,
          eachPutDelayed]
      | some sec =>
        simp [Simulator.write, h, hp, hz, matchState_none_of_matchSetUnset h,
          eachPutDelayed]
    · simp [Simulator.write, h, hp, matchState_none_of_matchSetUnset h,
        eachPutDelayed]
  · intro sim d p h hp
    simp [Simulator.write, h, hp, matchSetUnset_none_of_matchState h,
      eachPutDelayed]
  · intro sim d p h hp
    simp [Simulator.write, h, hp, matchSetUnset_none_of_matchState h]
  · intro now rules
    induction rules with
    | nil => rfl
    | cons r rest ih =>
      simp only [Simulator.workerTick, List.all_append, ih,
        Bool.and_eq_true, and_true]
      unfold simRuleTick
      cases r.time with
      | none => rfl
      | some t =>
        by_cases ht : t = 0
        · simp [ht]
        · by_cases hd : now - (match r.last_write with
            | Option.none => now
            | some lw => lw) > t
          · simp [ht, hd, BufOp.isSleep]
          · simp [ht, hd]

/-- Witness for the amended C2: an individually delayed SET reply, a
STATE batch behind a single delay, and an undelayed timed-rule line, on
concrete simulators. -/
theorem claim_C2_witness :
    eachPutDelayed
        (Simulator.write ⟨1234, [("1", ⟨1, "READY"⟩)]⟩ "1234 SET 1").1 = true
    ∧ (Simulator.write ⟨1234, [("1", ⟨1, "READY"⟩), ("2", ⟨2, "ARMED"⟩)]⟩
        "1234 STATE").1 =
      [.sleep] ++ ([("1", (⟨1, "READY"⟩ : Section)),
        ("2", (⟨2, "ARMED"⟩ : Section))]).map (fun kv => .put (some kv.2.str))
    ∧ ((Simulator.workerTick 100 [⟨some 1, some "EVENT", some 0⟩]).1).all
        (fun op => !op.isSleep) = true :=
  ⟨claim_C2_amended.1 _ "1234 SET 1" "1234" "SET" "1" rfl,
   claim_C2_amended.2.2.1 _ "1234 STATE" "1234" rfl rfl,
   claim_C2_amended.2.2.2 100 [⟨some 1, some "EVENT", some 0⟩]⟩

/-- Claim C1 counterexample: one enabled `mqtt2serial` topic `t` with two
rules — rule 1 expecting `{"command": "arm"}` and rule 2 with the empty
`read` dict, which every payload satisfies. For the payload
`{"command": "disarm"}`, rule 1's validation raises and aborts the handler,
so rule 2 — whose `read` matches, as the second conjunct shows — never
fires: no line is written at all. This falsifies "one rule's match failure
does not prevent later rules ... from being evaluated". -/
theorem claim_C1_counterexample :
    on_mqtt_message
        [⟨"t", false,
          [⟨[("command", .str "arm")], fun _ => "W1"⟩, ⟨[], fun _ => "W2"⟩]⟩]
        "t" [("command", .str "disarm")] [] =
      ([], some "Invalid value of property command, found: disarm, exepcted: arm",
        ["command"])
    ∧ check_rule_data [] [("command", .str "disarm")] [] = (Option.none, []) :=
  ⟨rfl, rfl⟩

/-- Claim C1 amended: on the serial-to-MQTT side every rule of every
enabled topic fires independently — the publish list is a `filterMap` in
which each rule contributes exactly when its own `read` matches. On the
MQTT-to-serial side the flattened rules of the enabled matching topics are
processed sequentially, and when every rule's validation succeeds every
rule fires in order (no short-circuit after a match); but a rule whose
`read` validation fails raises, aborting evaluation of all later rules and
topics for that message. -/
theorem claim_C1_amended :
    (∀ (topics : List SerialTopic) (line : String),
      on_serial_data true topics line =
        (serialEnabledRules topics).filterMap (fun tr =>
          if serialMatches (serialReadTarget tr.2.read) line
          then some (tr.1, tr.2.write line) else Option.none))
    ∧ (∀ (topics : List MqttTopic) (tn : String)
        (data : List (String × PyVal)) (dflt : List String),
      on_mqtt_message topics tn data dflt =
        runMqttRules (mqttMatchingRules topics tn) data dflt)
    ∧ (∀ (rules : List MqttRule) (data : List (String × PyVal))
        (dflt : List String),
      (runMqttRules rules data dflt).2.1 = Option.none →
      (runMqttRules rules data dflt).1 =
        rules.map (fun r => r.write data)) := by
  refine ⟨?_, ?_, ?_⟩
  · intro topics line
    simp [on_serial_data, runSerialTopics_eq_filterMap]
  · intro topics tn data dflt
    exact on_mqtt_message_eq_runRules topics tn data dflt
  · intro rules data dflt h
    exact runMqttRules_lines_of_no_error rules data dflt h

/-- Witness for the amended C1 at concrete inputs: a two-rule serial topic
publishing for its matching rule only, and a two-rule mqtt run where both
validations succeed and both writes fire. -/
theorem claim_C1_witness :
    on_serial_data true
        [⟨"s", false, [⟨.lit (.str "STATE 1 ARMED"), fun _ => "J1"⟩,
          ⟨.lit (.str "OTHER"), fun _ => "J2"⟩]⟩]
        "STATE 1 ARMED" = [("s", "J1")]
    ∧ (runMqttRules
        [⟨[("command", .str "arm")], fun _ => "W1"⟩, ⟨[], fun _ => "W2"⟩]
        [("command", .str "arm")] []).1 = ["W1", "W2"] :=
  ⟨claim_C1_amended.1 _ "STATE 1 ARMED",
   claim_C1_amended.2.2 _ [("command", .str "arm")] [] rfl⟩

/-- Claim C3 counterexample: with the property `a` present with value `0`,
`required=True` and no default (`default=None`), `ConfigPart.value`
returns `0` instead of raising: line 249 coerces `required` to `False`
whenever `default` is `None`. -/
theorem claim_C3_counterexample :
    ConfigPart.value ⟨Option.none, .dict [("a", .int 0)]⟩ "a"
        PyVal.none Option.none true false = .ok (.int 0) :=
  rfl

/-- Claim C3 amended: the `required` flag is enforced only when a non-None
`default` is also supplied (`required = default is not None and required`,
config.py:249). With `required=True`, a non-None default, no type coercion
and a non-expression resolved value, a falsy resolved value raises the
missing-property error; with `default=None` the falsy value is returned. -/
theorem claim_C3_amended :
    ∀ (cfg : List (String × PyVal)) (bp : Option String) (p : String)
      (d : PyVal),
      pyIsNone d = false →
      isPyExpr (pathReduce (.dict cfg) (pySplit '.' p) d) = false →
      pyTruthy (pathReduce (.dict cfg) (pySplit '.' p) d) = false →
      ConfigPart.value ⟨bp, .dict cfg⟩ p d Option.none true false =
        .error ("The property '" ++ ConfigPart.pathOf ⟨bp, .dict cfg⟩ p
          ++ "' does not exist!") := by
  intro cfg bp p d hd hexpr hfal
  unfold ConfigPart.value
  by_cases he : pyEq (pathReduce (.dict cfg) (pySplit '.' p) d) d = true
  · have hdf : pyTruthy d = false := pyTruthy_eq_false_of_pyEq he hfal
    simp [he, hd, hdf, show pyIsNone (PyVal.dict cfg) = false from rfl]
  · simp [he, hd, hexpr, hfal, show pyIsNone (PyVal.dict cfg) = false from rfl]

/-- Witness for the amended C3: property `a` present with value `0`,
default `1`, `required=True` raises the missing-property error. -/
theorem claim_C3_witness :
    ConfigPart.value ⟨Option.none, .dict [("a", .int 0)]⟩ "a"
        (.int 1) Option.none true false =
      .error "The property 'a' does not exist!" :=
  claim_C3_amended [("a", .int 0)] Option.none "a" (.int 1) rfl rfl rfl

/-- Claim C4 counterexample: for expected `{"a": {"b": 1}}` against actual
`{"a": {}}` the missing-property error message is `"Missing property b."`
— the bare key, not the dotted path `a.b`. Moreover the shared default
`path` list is left as `["a", "b"]`, so a second default-argument
invocation (third conjunct, starting from that leftover state) reports the
wrong dotted path `a.b.a.b` for a value mismatch at `a.b`. -/
theorem claim_C4_counterexample :
    check_rule_data [("a", .dict [("b", .int 1)])] [("a", .dict [])] [] =
      (some "Missing property b.", ["a", "b"])
    ∧ "Missing property b." ≠ "Missing property a.b."
    ∧ check_rule_data [("a", .dict [("b", .int 1)])]
        [("a", .dict [("b", .int 2)])] ["a", "b"] =
      (some "Invalid value of property a.b.a.b, found: 2, exepcted: 1",
        ["a", "b", "a", "b"]) :=
  ⟨rfl, by decide, rfl⟩

/-- Claim C4 amended: a key of `expected` absent from `actual` raises a
missing-property error naming only the bare key (never a dotted path); a
leaf value mismatch raises an error naming the joined accumulated path,
which equals the full dotted path on the first invocation that starts from
the empty default list — `{"a": {"b": 1}}` against `{"a": {"b": 1}}`
passes and against `{"a": {"b": 2}}` reports path `a.b` — but the default
list is mutated in place and shared, so later keys and later
default-argument invocations report extended, incorrect paths. -/
theorem claim_C4_amended :
    (∀ (k : String) (v : PyVal) (rest data : List (String × PyVal))
      (path : List String),
      lookupKey data k = Option.none →
      (check_rule_data ((k, v) :: rest) data path).1 =
        some ("Missing property " ++ k ++ "."))
    ∧ check_rule_data [("a", .dict [("b", .int 1)])]
        [("a", .dict [("b", .int 1)])] [] = (Option.none, ["a", "b"])
    ∧ check_rule_data [("a", .dict [("b", .int 1)])]
        [("a", .dict [("b", .int 2)])] [] =
      (some "Invalid value of property a.b, found: 2, exepcted: 1",
        ["a", "b"]) := by
  refine ⟨?_, rfl, rfl⟩
  intro k v rest data path h
  simp [check_rule_data, h]

/-- Witness for the amended C4 at a concrete missing key. -/
theorem claim_C4_witness :
    (check_rule_data [("b", .int 1)] [("c", .int 1)] ["a"]).1 =
      some "Missing property b." :=
  claim_C4_amended.1 "b" (.int 1) [] [("c", .int 1)] ["a"] rfl

/-- Claim C7: the call-style lookup on `Config` ignores every supplied
argument and always delegates to the root `ConfigPart` exactly as a
path-only invocation would. -/
theorem claim_C7 :
    ∀ (cfg : Config) (p : String) (d : PyVal) (ty : Option PyCoerce)
      (req ne : Bool),
      cfg.call p d ty req ne = cfg.root.callPathOnly p :=
  fun _ _ _ _ _ _ => rfl

/-- Claim C8 counterexample: the example `Pattern` matches
`"STATE 3 READY"` (rendering the matched line) and fails on
`"STATE 3 ARMED"`, but the no-match rendering is `"r'^STATE ([0-9]+)
READY$'"` — the pattern wrapped in `r'...'` — not the original pattern
source text, falsifying "is exactly the original raw pattern source
text". -/
theorem claim_C8_counterexample :
    ((Pattern.compile "^STATE ([0-9]+) READY$" stateReadyRe).eq
        "STATE 3 READY").2 = true
    ∧ ((Pattern.compile "^STATE ([0-9]+) READY$" stateReadyRe).eq
        "STATE 3 READY").1.str = "STATE 3 READY"
    ∧ ((Pattern.compile "^STATE ([0-9]+) READY$" stateReadyRe).eq
        "STATE 3 ARMED").2 = false
    ∧ ((Pattern.compile "^STATE ([0-9]+) READY$" stateReadyRe).eq
        "STATE 3 ARMED").1.str = "r'^STATE ([0-9]+) READY$'"
    ∧ ((Pattern.compile "^STATE ([0-9]+) READY$" stateReadyRe).eq
        "STATE 3 ARMED").1.str ≠ "^STATE ([0-9]+) READY$" :=
  ⟨rfl, rfl, rfl, rfl, by decide⟩

/-- Claim C8 amended: equality comparison performs the left-anchored
match, stores the result and returns whether it succeeded; the rendering
after a successful comparison is the full matched substring; when no match
is stored the rendering is the raw pattern source wrapped in `r'...'`
quoting (`f"r'{self.pattern}'"`), not the bare source text. -/
theorem claim_C8_amended :
    ∀ (pt : Pattern) (s : String),
      ((pt.eq s).1.matchRes = pt.re s)
      ∧ ((pt.eq s).2 = (pt.re s).isSome)
      ∧ ((pt.eq s).1.pattern = pt.pattern)
      ∧ (∀ m, (pt.eq s).1.matchRes = some m → (pt.eq s).1.str = m)
      ∧ (pt.matchRes = Option.none →
          pt.str = "r'" ++ pt.pattern ++ "'") := by
  intro pt s
  refine ⟨rfl, rfl, rfl, ?_, ?_⟩
  · intro m hm
    simp only [Pattern.eq] at hm
    simp [Pattern.str, Pattern.eq, hm]
  · intro hm
    simp [Pattern.str, hm]

/-- Witness for the amended C8 at the example pattern. -/
theorem claim_C8_witness :
    ((Pattern.compile "^STATE ([0-9]+) READY$" stateReadyRe).eq
        "STATE 3 READY").1.str = "STATE 3 READY"
    ∧ (Pattern.compile "^STATE ([0-9]+) READY$" stateReadyRe).str =
        "r'^STATE ([0-9]+) READY$'" :=
  ⟨(claim_C8_amended (Pattern.compile "^STATE ([0-9]+) READY$" stateReadyRe)
      "STATE 3 READY").2.2.2.1 "STATE 3 READY" rfl,
   (claim_C8_amended (Pattern.compile "^STATE ([0-9]+) READY$" stateReadyRe)
      "STATE 3 READY").2.2.2.2 rfl⟩

/-- Claim C9: the consolidated environment table starts from the OS
environment (no file gives back exactly the OS table); stripped-blank and
`#`-comment lines are ignored; surrounding single/double quotes are
stripped from values; a key not matching `[A-Z0-9_]+` raises the fatal
`Invalid variable name` error; and an assignment stores the file's value
under the key, so for a name present in both the file and the OS
environment the file's value is the one found in the resulting table. -/
theorem claim_C9 :
    (∀ os, init_env os Option.none = .ok os)
    ∧ (∀ env l, pyStripWs l = "" → init_env_line env l = .ok env)
    ∧ (∀ env l, pyStartsWith "#" (pyStripWs l) = true →
        init_env_line env l = .ok env)
    ∧ init_env_line [] "FOO='bar'" = .ok [("FOO", "bar")]
    ∧ init_env_line [] "FOO=\"bar\"" = .ok [("FOO", "bar")]
    ∧ (∀ env l, pyStripWs l ≠ "" →
        pyStartsWith "#" (pyStripWs l) = false →
        envNameOk (pyStripWs ((pySplit '=' (pyStripWs l)).headD "")) = false →
        init_env_line env l =
          .error ("Invalid variable name '"
            ++ pyStripWs ((pySplit '=' (pyStripWs l)).headD "") ++ "'."))
    ∧ (∀ env k v, lookupEnv (setEnv env k v) k = some v)
    ∧ init_env [("FOO", "os"), ("BAR", "x")] (some ["FOO=file"]) =
        .ok [("FOO", "file"), ("BAR", "x")] := by
  refine ⟨fun _ => rfl, ?_, ?_, rfl, rfl, ?_, ?_, rfl⟩
  · intro env l h
    simp [init_env_line, h]
  · intro env l h
    simp [init_env_line, h]
  · intro env l h1 h2 h3
    simp only [List.headD_eq_head?] at h3
    simp [init_env_line, h1, h2, h3]
  · intro env k v
    unfold setEnv
    cases h : env.any (fun p => p.1 = k) with
    | true =>
      simp only [h, if_true]
      exact lookupEnv_map_replace env k v h
    | false =>
      simp only [h, Bool.false_eq_true, if_false]
      exact lookupEnv_append_new env k v h

/-- Witness for C9 at concrete lines and tables. -/
theorem claim_C9_witness :
    init_env_line [("A", "b")] "   " = .ok [("A", "b")]
    ∧ init_env_line [("A", "b")] "  # note" = .ok [("A", "b")]
    ∧ init_env_line [] "foo=1" = .error "Invalid variable name 'foo'."
    ∧ lookupEnv (setEnv [("FOO", "os")] "FOO" "file") "FOO" = some "file" :=
  ⟨claim_C9.2.1 [("A", "b")] "   " rfl,
   claim_C9.2.2.1 [("A", "b")] "  # note" rfl,
   claim_C9.2.2.2.2.2.1 [] "foo=1" (by decide) rfl rfl,
   claim_C9.2.2.2.2.2.2.1 [("FOO", "os")] "FOO" "file"⟩

/-- Claim C10: the Serial component reads its encoding through the
boolean-coercing accessor `value_bool("encoding", default="ascii")`, so
the default `"ascii"` survives exactly when the configuration omits the
encoding or sets it to the default value; any other non-empty configured
encoding string resolves `bool("<s>") = True` and the `encoding` attribute
becomes the boolean `True` rather than the configured string. -/
theorem claim_C10 :
    (∀ (cfg : List (String × PyVal)) (bp : Option String),
      lookupKey cfg "encoding" = Option.none →
      Serial.encodingOf ⟨bp, .dict cfg⟩ = .ok (.str "ascii"))
    ∧ (∀ (cfg : List (String × PyVal)) (bp : Option String),
      lookupKey cfg "encoding" = some (.str "ascii") →
      Serial.encodingOf ⟨bp, .dict cfg⟩ = .ok (.str "ascii"))
    ∧ (∀ (cfg : List (String × PyVal)) (bp : Option String) (s : String),
      lookupKey cfg "encoding" = some (.str s) → s ≠ "" → s ≠ "ascii" →
      Serial.encodingOf ⟨bp, .dict cfg⟩ = .ok (.bool true)) := by
  have hsplit : pySplit '.' "encoding" = ["encoding"] := rfl
  refine ⟨?_, ?_, ?_⟩
  · intro cfg bp h
    unfold Serial.encodingOf ConfigPart.value_bool ConfigPart.value
    simp [hsplit, pathReduce, h, pyEq, pyTruthy]
  · intro cfg bp h
    unfold Serial.encodingOf ConfigPart.value_bool ConfigPart.value
    simp [hsplit, pathReduce, h, pyEq, pyTruthy]
  · intro cfg bp s h hs1 hs2
    have hdata : s.data ≠ [] := by
      intro hl
      apply hs1
      cases s with
      | mk l => simp only at hl; simp [hl]
    unfold Serial.encodingOf ConfigPart.value_bool ConfigPart.value
    simp only [hsplit, pathReduce, List.foldl_cons, List.foldl_nil, h,
      Option.getD_some]
    simp [pyEq, pyTruthy, pyCoerce, hs2, isPyExpr,
      show pyIsNone (PyVal.dict cfg) = false from rfl]
    cases hsd : s.data with
    | nil => exact absurd hsd hdata
    | cons c cs => simp [hsd]

/-- Witness for C10: encoding omitted, set to `"ascii"`, and set to
`"utf-8"` on concrete configurations. -/
theorem claim_C10_witness :
    Serial.encodingOf ⟨some "serial", .dict []⟩ = .ok (.str "ascii")
    ∧ Serial.encodingOf ⟨some "serial", .dict [("encoding", .str "ascii")]⟩
        = .ok (.str "ascii")
    ∧ Serial.encodingOf ⟨some "serial", .dict [("encoding", .str "utf-8")]⟩
        = .ok (.bool true) :=
  ⟨claim_C10.1 [] (some "serial") rfl,
   claim_C10.2.1 [("encoding", .str "ascii")] (some "serial") rfl,
   claim_C10.2.2 [("encoding", .str "utf-8")] (some "serial") "utf-8" rfl
     (by decide) (by decide)⟩
